import Mathlib

/-!
# Setup and initialisation of the chat server (`server/main.go`)

A shallow embedding of `main` and `getApiKey` from `src/server/main.go`.
`main` is embedded as a function from the command-line flags and the outcomes
of the calls it makes outside the file (file system, JSON decoder, store, push,
HTTP server) to the final process state, the exit kind, and the trace of those
calls in program order.  Each trace entry carries the value of `globals` at the
moment of the call.
-/

namespace Chat

/-! ## Durations and constants (main.go 31-42) -/

/-- Go `time.Duration`: a signed 64-bit count of nanoseconds. -/
abbrev Duration := Int

/-- Two's-complement wrap of an integer into the `int64` range, the result of
run-time `int64` arithmetic in Go. -/
def wrapInt64 (x : Int) : Int := (x + 2 ^ 63) % 2 ^ 64 - 2 ^ 63

/-- Go `time.Second`. -/
def Second : Duration := 1000000000

/-- Terminate session after this timeout (main.go 33). -/
def IDLETIMEOUT : Duration := Second * 55

/-- Keep topic alive after the last session detached (main.go 35). -/
def TOPICTIMEOUT : Duration := Second * 5

/-- API version (main.go 38). -/
def VERSION : String := "0.9"

/-! ## Collaborators declared outside `main.go` -/

/-- Modelled from the spec: the `Hub` type is declared outside `main.go`; the
spec describes it as the dispatcher mapping topic names to topic actors, so the
value records the names of the topics it currently holds. -/
structure Hub where
  topics : List String
  deriving DecidableEq, Repr

/-- Modelled from the spec: `newHub` is declared outside `main.go`; the spec
asks for one explicit Hub value with a defined initialisation, which is the hub
holding no topic. -/
def newHub : Hub := { topics := [] }

/-- Modelled from the spec: the `SessionStore` type is declared outside
`main.go`; the spec describes it as the registry of live sessions that evicts a
session idle for longer than its lifetime. -/
structure SessionStore where
  lifetime : Duration
  sessions : List String
  deriving DecidableEq, Repr

/-- Modelled from the spec: `NewSessionStore` is declared outside `main.go`; it
builds the empty registry with the lifetime it is given. -/
def NewSessionStore (lifetime : Duration) : SessionStore :=
  { lifetime := lifetime, sessions := [] }

/-- Modelled from the spec: the `Cluster` type is declared outside `main.go`;
only the configuration it was started from is recorded. -/
structure Cluster where
  config : String
  deriving DecidableEq, Repr

/-! ## Process state (main.go 47-67) -/

/-- The package-level `globals` variable (main.go 47-54).  Pointers are
`Option`s, `none` being `nil`. -/
structure Globals where
  hub : Option Hub
  sessionStore : Option SessionStore
  cluster : Option Cluster
  apiKeySalt : List UInt8
  tokenExpiresIn : Duration
  indexableTags : List String
  deriving DecidableEq, Repr

/-- The zero value of `globals`, in effect when `main` starts. -/
def Globals.zero : Globals :=
  { hub := none, sessionStore := none, cluster := none, apiKeySalt := [],
    tokenExpiresIn := 0, indexableTags := [] }

/-- The `configType` struct (main.go 56-67).  A `json.RawMessage` is kept as the
string `string(...)` converts it to. -/
structure configType where
  Listen : String
  Adapter : String
  APIKeySalt : List UInt8
  TokenExpiresIn : Int
  IndexableTags : List String
  ClusterConfig : String
  StoreConfig : String
  PushConfig : String
  deriving DecidableEq, Repr

/-- The values of the three command-line flags after `flag.Parse()`
(main.go 72-76). -/
structure Flags where
  configfile : String
  staticPath : String
  listenOn : String
  deriving DecidableEq, Repr

/-- The flag defaults (main.go 72, 74, 75). -/
def Flags.default : Flags :=
  { configfile := "./tinode.conf", staticPath := "", listenOn := "" }

/-- An `http.Handler` value as built in `main`. -/
inductive Handler where
  | serveWebSocket
  | serveLongPoll
  | FileServer (root : String)
  | StripPrefix (pfx : String) (h : Handler)
  deriving DecidableEq, Repr

/-- The calls `main` makes, in the order they appear in a trace. -/
inductive Event where
  | logPrintf (msg : String)
  | logPrintln (msg : String)
  | logFatal (msg : String)
  | ReadFile (path : String)
  | Unmarshal (raw : String)
  | storeOpen (adapter : String) (cfg : String)
  | storeClose
  | pushInit (cfg : String)
  | pushStop
  | NewSessionStore (lifetime : Duration)
  | newHub
  | clusterInit (cfg : String)
  | Getwd
  | Handle (pattern : String) (h : Handler)
  | signalHandler
  | listenAndServe (addr : String)
  deriving DecidableEq, Repr

/-- How the process ended: `log.Fatal` exits with status 1 and runs no deferred
call; `returned` is the normal return from `main`. -/
inductive Exit where
  | fatal
  | returned
  deriving DecidableEq, Repr

/-- The process state: `globals`, the patterns registered on the default HTTP
mux, and the calls made so far, each with `globals` as it was at the call. -/
structure State where
  globals : Globals
  mux : List (String × Handler)
  trace : List (Event × Globals)
  deriving DecidableEq, Repr

/-- The state when `main` is entered. -/
def State.start : State := { globals := Globals.zero, mux := [], trace := [] }

/-- The calls of a state's trace, without the `globals` snapshots. -/
def State.events (s : State) : List Event := s.trace.map Prod.fst

/-- The outcomes of the calls `main` makes outside the file.  An error result
is `Except.error` (or `some err` where the call returns only an error). -/
structure Env where
  pid : Nat
  procs : Nat
  ReadFile : String → Except String String
  Unmarshal : String → Except String configType
  storeOpen : String → String → Option String
  pushInit : String → Option String
  clusterInit : String → Option Cluster
  Getwd : Except String String
  listenAndServe : String → Option String

/-! ## `main` (main.go 69-145) -/

/-- Record a call in the trace, with the current `globals`. -/
def emit (e : Event) (s : State) : State :=
  { s with trace := s.trace ++ [(e, s.globals)] }

/-- Go `log.Fatal`: write the message, then exit without running deferred
calls. -/
def logFatal (msg : String) (s : State) : State × Exit :=
  (emit (Event.logFatal msg) s, Exit.fatal)

/-- Go `http.Handle` / `http.HandleFunc` on the default mux. -/
def httpHandle (pattern : String) (h : Handler) (s : State) : State :=
  emit (Event.Handle pattern h) { s with mux := s.mux ++ [(pattern, h)] }

/-- The override of the listen address by the `-listen` flag (main.go 87-89). -/
def overrideListen (listenOn : String) (config : configType) : configType :=
  if listenOn ≠ "" then { config with Listen := listenOn } else config

/-- The static-content handler registration (main.go 122-132).  On a `Getwd`
error the process exits through `log.Fatal`. -/
def serveStatic (fl : Flags) (env : Env) (s : State) : Except State State :=
  if fl.staticPath ≠ "" then
    .ok (httpHandle "/x/"
      (Handler.StripPrefix "/x/" (Handler.FileServer fl.staticPath)) s)
  else
    let s := emit Event.Getwd s
    match env.Getwd with
    | .error err => .error (logFatal err s).1
    | .ok path =>
      .ok (httpHandle "/x/"
        (Handler.StripPrefix "/x/" (Handler.FileServer (path ++ "/static"))) s)

/-- The part of `main` after both deferred calls are installed
(main.go 109-144), up to the return from the function body. -/
def mainBody (fl : Flags) (env : Env) (config : configType) (s : State) :
    State × Exit :=
  -- Keep inactive LP sessions for 15 seconds
  let s := emit (Event.NewSessionStore (IDLETIMEOUT + 15 * Second)) s
  let s := { s with globals := { s.globals with
    sessionStore := some (NewSessionStore (IDLETIMEOUT + 15 * Second)) } }
  -- The hub (the main message router)
  let s := emit Event.newHub s
  let s := { s with globals := { s.globals with hub := some newHub } }
  -- Cluster initialization
  let s := emit (Event.clusterInit config.ClusterConfig) s
  let s := { s with globals := { s.globals with
    cluster := env.clusterInit config.ClusterConfig } }
  -- Expiration time of login tokens
  let s := { s with globals := { s.globals with
    tokenExpiresIn := wrapInt64 (wrapInt64 config.TokenExpiresIn * Second) } }
  -- API key validation secret
  let s := { s with globals := { s.globals with apiKeySalt := config.APIKeySalt } }
  -- Indexable tags for user discovery
  let s := { s with globals := { s.globals with
    indexableTags := config.IndexableTags } }
  match serveStatic fl env s with
  | .error s => (s, Exit.fatal)
  | .ok s =>
    let s := httpHandle "/v0/channels" Handler.serveWebSocket s
    let s := httpHandle "/v0/channels/lp" Handler.serveLongPoll s
    let s := emit (Event.logPrintf
      ("Listening for client HTTP connections on [" ++ config.Listen ++ "]")) s
    let s := emit Event.signalHandler s
    let s := emit (Event.listenAndServe config.Listen) s
    match env.listenAndServe config.Listen with
    | some err => logFatal err s
    | none => (emit (Event.logPrintln "All done, good bye") s, Exit.returned)

/-- The deferred calls run when `main` returns, last installed first
(main.go 104-107, then 95-98). -/
def runDeferred (s : State) : State :=
  let s := emit Event.pushStop s
  let s := emit (Event.logPrintln "Stopped push notifications") s
  let s := emit Event.storeClose s
  emit (Event.logPrintln "Closed database connection(s)") s

/-- The function `main` (main.go 69-145). -/
def main (fl : Flags) (env : Env) : State × Exit :=
  let s := emit (Event.logPrintf ("Server pid=" ++ toString env.pid ++
    " started with processes: " ++ toString env.procs)) State.start
  let s := emit (Event.logPrintf ("Using config from: '" ++ fl.configfile ++ "'")) s
  let s := emit (Event.ReadFile fl.configfile) s
  match env.ReadFile fl.configfile with
  | .error err => logFatal err s
  | .ok raw =>
    let s := emit (Event.Unmarshal raw) s
    match env.Unmarshal raw with
    | .error err => logFatal err s
    | .ok config =>
      let config := overrideListen fl.listenOn config
      let s := emit (Event.storeOpen config.Adapter config.StoreConfig) s
      match env.storeOpen config.Adapter config.StoreConfig with
      | some err => logFatal ("Failed to connect to DB: " ++ err) s
      | none =>
        let s := emit (Event.pushInit config.PushConfig) s
        match env.pushInit config.PushConfig with
        | some err =>
          logFatal ("Failed to initialize push notifications: " ++ err) s
        | none =>
          match mainBody fl env config s with
          | (s, Exit.fatal) => (s, Exit.fatal)
          | (s, Exit.returned) => (runDeferred s, Exit.returned)

/-! ## `getApiKey` (main.go 147-153) -/

/-- The part of an `*http.Request` that `getApiKey` reads: the parsed form and
the header, each a Go map from a key to its list of values (a missing key maps
to the empty list). -/
structure Request where
  Form : String → List String
  Header : String → List String

/-- Go `Request.FormValue`: the first value for the key, or `""`. -/
def Request.FormValue (req : Request) (key : String) : String :=
  match req.Form key with
  | [] => ""
  | v :: _ => v

/-- Go `Header.Get`: the first value stored for the header, or `""`.  The map
is keyed by the header name as `Get` receives it. -/
def Request.HeaderGet (req : Request) (key : String) : String :=
  match req.Header key with
  | [] => ""
  | v :: _ => v

/-- The function `getApiKey` (main.go 147-153). -/
def getApiKey (req : Request) : String :=
  let apikey := req.FormValue "apikey"
  if apikey = "" then req.HeaderGet "X-Tinode-APIKey" else apikey

/-! ## The topic actor

`topic.go` is not among the sources; the actor is modelled from the spec
(sections 3, 4.3 and 7). -/

/-- Modelled from the spec: the access mode of a subscriber, the tagged variant
of section 9 (`topic.go` is missing). -/
inductive AccessMode where
  | none
  | read
  | write
  | admin
  deriving DecidableEq, Repr

/-- Modelled from the spec: whether a mode carries the write access that
`Publish` validates (`topic.go` is missing). -/
def AccessMode.canWrite : AccessMode → Bool
  | .write => true
  | .admin => true
  | _ => false

/-- Modelled from the spec: the states of a topic, section 4.3 (`topic.go` is
missing). -/
inductive TopicState where
  | Loading
  | Live
  | Dying
  deriving DecidableEq, Repr

/-- Modelled from the spec: the Topic of section 3 (`topic.go` is missing):
name, subscribers (session id, access mode, last-seen sequence number),
sequence counter and state. -/
structure Topic where
  name : String
  subscribers : List (String × AccessMode × Nat)
  sequenceCounter : Nat
  state : TopicState
  deriving DecidableEq, Repr

/-- Modelled from the spec: the failures of section 7 a topic operation can
return (`topic.go` is missing). -/
inductive TopicError where
  | PermissionDenied
  | StoreFailure
  deriving DecidableEq, Repr

/-- Modelled from the spec: the events of a topic mailbox (`topic.go` is
missing).  `stored` is the outcome of the storage collaborator's
`AppendMessage` for that publish. -/
inductive TopicOp where
  | Subscribe (session : String) (mode : AccessMode)
  | Unsubscribe (session : String)
  | Publish (session : String) (payload : String) (stored : Bool)
  deriving DecidableEq, Repr

/-- Modelled from the spec: what the actor returns to the requester
(`topic.go` is missing): the topic snapshot for a subscribe, the assigned
sequence id and the sessions the message was broadcast to for an accepted
publish, or the failure. -/
inductive TopicReply where
  | snapshot (subscribers : List String) (latest : Nat)
  | left
  | ack (sequenceId : Nat) (payload : String) (broadcast : List String)
  | failed (err : TopicError)
  deriving DecidableEq, Repr

/-- Modelled from the spec: the access mode a session holds on the topic, if it
is subscribed (`topic.go` is missing). -/
def Topic.modeOf (t : Topic) (session : String) : Option AccessMode :=
  (t.subscribers.find? (fun e => e.1 = session)).map (fun e => e.2.1)

/-- Modelled from the spec: `Subscribe` of section 4.3 (`topic.go` is missing):
adds the subscriber entry, makes the topic Live (ending Loading, cancelling
Dying) and returns the snapshot. -/
def Topic.Subscribe (t : Topic) (session : String) (mode : AccessMode) :
    Topic × TopicReply :=
  let subs := t.subscribers.filter (fun e => e.1 ≠ session) ++
    [(session, mode, t.sequenceCounter)]
  ({ t with subscribers := subs, state := TopicState.Live },
    TopicReply.snapshot (subs.map (fun e => e.1)) t.sequenceCounter)

/-- Modelled from the spec: `Unsubscribe` of section 4.3 (`topic.go` is
missing): removes the subscriber, a no-op for a session that is not subscribed;
the topic becomes Dying when the last subscriber leaves. -/
def Topic.Unsubscribe (t : Topic) (session : String) : Topic × TopicReply :=
  match t.modeOf session with
  | Option.none => (t, TopicReply.left)
  | some _ =>
    let subs := t.subscribers.filter (fun e => e.1 ≠ session)
    ({ t with subscribers := subs,
              state := if subs.isEmpty then TopicState.Dying else t.state },
      TopicReply.left)

/-- Modelled from the spec: `Publish` of section 4.3 (`topic.go` is missing):
validates write access, assigns the next sequence id, broadcasts to every
current subscriber and acknowledges with the assigned id.  PermissionDenied and
StoreFailure leave the topic, and so the sequence counter, unchanged. -/
def Topic.Publish (t : Topic) (session : String) (payload : String)
    (stored : Bool) : Topic × TopicReply :=
  match t.modeOf session with
  | Option.none => (t, TopicReply.failed TopicError.PermissionDenied)
  | some mode =>
    if mode.canWrite then
      if stored then
        let seq := t.sequenceCounter + 1
        ({ t with sequenceCounter := seq },
          TopicReply.ack seq payload (t.subscribers.map (fun e => e.1)))
      else (t, TopicReply.failed TopicError.StoreFailure)
    else (t, TopicReply.failed TopicError.PermissionDenied)

/-- Modelled from the spec: one mailbox event processed by the actor
(`topic.go` is missing). -/
def Topic.step (t : Topic) : TopicOp → Topic × TopicReply
  | .Subscribe session mode => t.Subscribe session mode
  | .Unsubscribe session => t.Unsubscribe session
  | .Publish session payload stored => t.Publish session payload stored

/-- Modelled from the spec: the mailbox processed one event at a time, in
arrival order (`topic.go` is missing); returns the final topic and the replies
in order. -/
def Topic.run (t : Topic) : List TopicOp → Topic × List TopicReply
  | [] => (t, [])
  | op :: ops =>
    let r := t.step op
    let rest := Topic.run r.1 ops
    (rest.1, r.2 :: rest.2)

/-- The sequence ids of the accepted publishes among a list of replies, in
order. -/
def acceptedIds : List TopicReply → List Nat
  | [] => []
  | TopicReply.ack seq _ _ :: rs => seq :: acceptedIds rs
  | _ :: rs => acceptedIds rs

/-- Modelled from the spec: a topic as created on first subscribe, before any
publish (`topic.go` is missing). -/
def Topic.create (name : String) : Topic :=
  { name := name, subscribers := [], sequenceCounter := 0,
    state := TopicState.Loading }

/-! ## Observations on a run -/

/-- The lifetimes handed to `NewSessionStore` along a trace, in call order. -/
def sessionLifetimes : List Event → List Duration
  | [] => []
  | Event.NewSessionStore d :: es => d :: sessionLifetimes es
  | _ :: es => sessionLifetimes es

/-- Whether a call registers a handler on the HTTP mux. -/
def Event.isHandle : Event → Bool
  | Event.Handle _ _ => true
  | _ => false

/-- Whether a call is `clusterInit`. -/
def Event.isClusterInit : Event → Bool
  | Event.clusterInit _ => true
  | _ => false

/-- Whether a call is `listenAndServe`. -/
def Event.isListen : Event → Bool
  | Event.listenAndServe _ => true
  | _ => false

/-- The directory a handler built in `main` serves files from, if it is a file
server (possibly behind `StripPrefix`). -/
def Handler.root : Handler → Option String
  | Handler.FileServer root => some root
  | Handler.StripPrefix _ h => h.root
  | _ => none

/-! ## A concrete run -/

/-- A sample parsed configuration. -/
def sampleConfig : configType :=
  { Listen := ":6060", Adapter := "rethinkdb", APIKeySalt := [1, 2],
    TokenExpiresIn := 1209600, IndexableTags := ["tel"], ClusterConfig := "",
    StoreConfig := "db", PushConfig := "fcm" }

/-- A sample environment in which every call succeeds, the config file parses
to `sampleConfig`, and the working directory is `/srv`. -/
def sampleEnv : Env :=
  { pid := 7, procs := 4,
    ReadFile := fun _ => .ok "raw",
    Unmarshal := fun _ => .ok sampleConfig,
    storeOpen := fun _ _ => none,
    pushInit := fun _ => none,
    clusterInit := fun _ => none,
    Getwd := .ok "/srv",
    listenAndServe := fun _ => none }

/-- A sample request carrying the key only in the header. -/
def sampleRequest : Request :=
  { Form := fun _ => [],
    Header := fun k => if k = "X-Tinode-APIKey" then ["AQEAAAABAAD"] else [] }

/-! ## Theorems about `main` -/

/-- C1: on every run of `main` that reaches `listenAndServe` (a successful
startup), `NewSessionStore` is called exactly once and receives
`IDLETIMEOUT + 15 s`, the store kept in `globals` has that lifetime, and the
value is 70 s (70 * 10^9 ns), fits `int64`, and is strictly greater than
`IDLETIMEOUT` = 55 s, whatever the flags and the config file hold. -/
theorem main_session_store_lifetime (fl : Flags) (env : Env)
    (h : ∃ a, Event.listenAndServe a ∈ (main fl env).1.events) :
    sessionLifetimes (main fl env).1.events = [IDLETIMEOUT + 15 * Second] ∧
    (main fl env).1.globals.sessionStore =
      some (NewSessionStore (IDLETIMEOUT + 15 * Second)) ∧
    IDLETIMEOUT + 15 * Second = 70 * 10 ^ 9 ∧
    wrapInt64 (IDLETIMEOUT + 15 * Second) = IDLETIMEOUT + 15 * Second ∧
    IDLETIMEOUT = 55 * 10 ^ 9 ∧
    IDLETIMEOUT < IDLETIMEOUT + 15 * Second := by
  refine ⟨?_, ?_, by decide, by decide, by decide, by decide⟩
  all_goals
    obtain ⟨a, h⟩ := h
    revert h
    unfold main
    cases h1 : env.ReadFile fl.configfile with
    | error e => simp [logFatal, emit, State.events, State.start]
    | ok raw =>
      cases h2 : env.Unmarshal raw with
      | error e => simp [h2, logFatal, emit, State.events, State.start]
      | ok c =>
        cases h3 : env.storeOpen (overrideListen fl.listenOn c).Adapter
            (overrideListen fl.listenOn c).StoreConfig with
        | some e => simp [h2, h3, logFatal, emit, State.events, State.start]
        | none =>
          cases h4 : env.pushInit (overrideListen fl.listenOn c).PushConfig with
          | some e => simp [h2, h3, h4, logFatal, emit, State.events, State.start]
          | none =>
            cases h7 : env.listenAndServe (overrideListen fl.listenOn c).Listen <;>
            by_cases h5 : fl.staticPath = "" <;>
            cases h6 : env.Getwd <;>
            simp [h2, h3, h4, h5, h6, h7, mainBody, serveStatic, httpHandle,
              runDeferred, logFatal, emit, State.events, State.start,
              sessionLifetimes]

/-- Witness for C1: the sample run reaches `listenAndServe` and hands
`NewSessionStore` the 70 s lifetime. -/
theorem main_session_store_lifetime_witness :
    (∃ a, Event.listenAndServe a ∈ (main Flags.default sampleEnv).1.events) ∧
    sessionLifetimes (main Flags.default sampleEnv).1.events =
      [IDLETIMEOUT + 15 * Second] :=
  ⟨⟨":6060", by decide⟩,
    (main_session_store_lifetime Flags.default sampleEnv ⟨":6060", by decide⟩).1⟩

/-- Every lifetime handed to `NewSessionStore`, on any run of `main`, is the
constant `IDLETIMEOUT + 15 s`. -/
theorem sessionLifetimes_main (fl : Flags) (env : Env) (d : Duration)
    (h : d ∈ sessionLifetimes (main fl env).1.events) :
    d = IDLETIMEOUT + 15 * Second := by
  revert h
  unfold main
  cases h1 : env.ReadFile fl.configfile with
  | error e => simp [logFatal, emit, State.events, State.start, sessionLifetimes]
  | ok raw =>
    cases h2 : env.Unmarshal raw with
    | error e =>
      simp [h2, logFatal, emit, State.events, State.start, sessionLifetimes]
    | ok c =>
      cases h3 : env.storeOpen (overrideListen fl.listenOn c).Adapter
          (overrideListen fl.listenOn c).StoreConfig with
      | some e =>
        simp [h2, h3, logFatal, emit, State.events, State.start, sessionLifetimes]
      | none =>
        cases h4 : env.pushInit (overrideListen fl.listenOn c).PushConfig with
        | some e =>
          simp [h2, h3, h4, logFatal, emit, State.events, State.start,
            sessionLifetimes]
        | none =>
          cases h7 : env.listenAndServe (overrideListen fl.listenOn c).Listen <;>
          by_cases h5 : fl.staticPath = "" <;>
          cases h6 : env.Getwd <;>
          simp [h2, h3, h4, h5, h6, h7, mainBody, serveStatic, httpHandle,
            runDeferred, logFatal, emit, State.events, State.start,
            sessionLifetimes]

/-- C2 (as stated, refuted): no two runs of `main`, whatever flags they get,
whatever config value the decoder returns and whatever the other calls return,
hand `NewSessionStore` different lifetimes, and `TOPICTIMEOUT` is the constant
5 s; so no two config values put different timeouts into effect. -/
theorem timeouts_do_not_depend_on_config :
    (¬ ∃ (fl₁ fl₂ : Flags) (env₁ env₂ : Env) (d₁ d₂ : Duration),
      d₁ ∈ sessionLifetimes (main fl₁ env₁).1.events ∧
      d₂ ∈ sessionLifetimes (main fl₂ env₂).1.events ∧ d₁ ≠ d₂) ∧
    TOPICTIMEOUT = 5 * 10 ^ 9 := by
  refine ⟨?_, by decide⟩
  rintro ⟨fl₁, fl₂, env₁, env₂, d₁, d₂, h₁, h₂, hne⟩
  exact hne ((sessionLifetimes_main fl₁ env₁ d₁ h₁).trans
    (sessionLifetimes_main fl₂ env₂ d₂ h₂).symm)

/-- C2 (amended): the idle timeout and the topic grace timeout are not supplied
by the settings object: `IDLETIMEOUT` is the constant 55 s and `TOPICTIMEOUT`
the constant 5 s, and whatever config value `c` was parsed from the config file,
every call of `NewSessionStore` receives `IDLETIMEOUT + 15 s` = 70 s and, on a
run that reaches `listenAndServe`, the session store kept in `globals` is the
one built with that lifetime. -/
theorem timeouts_are_constants (fl : Flags) (env : Env) (raw : String)
    (c : configType) (hr : env.ReadFile fl.configfile = .ok raw)
    (hu : env.Unmarshal raw = .ok c) :
    IDLETIMEOUT = 55 * 10 ^ 9 ∧ TOPICTIMEOUT = 5 * 10 ^ 9 ∧
    (∀ d ∈ sessionLifetimes (main fl env).1.events,
      d = IDLETIMEOUT + 15 * Second ∧ d = 70 * 10 ^ 9) ∧
    ((∃ a, Event.listenAndServe a ∈ (main fl env).1.events) →
      sessionLifetimes (main fl env).1.events = [70 * 10 ^ 9] ∧
      (main fl env).1.globals.sessionStore =
        some (NewSessionStore (70 * 10 ^ 9))) := by
  have h70 : IDLETIMEOUT + 15 * Second = 70 * 10 ^ 9 := by decide
  refine ⟨by decide, by decide, ?_, ?_⟩
  · intro d hd
    have hd := sessionLifetimes_main fl env d hd
    exact ⟨hd, hd.trans h70⟩
  · rintro ⟨a, h⟩
    revert h
    unfold main
    simp only [hr, hu]
    cases h3 : env.storeOpen (overrideListen fl.listenOn c).Adapter
        (overrideListen fl.listenOn c).StoreConfig with
    | some e => simp [h3, logFatal, emit, State.events, State.start]
    | none =>
      cases h4 : env.pushInit (overrideListen fl.listenOn c).PushConfig with
      | some e => simp [h3, h4, logFatal, emit, State.events, State.start]
      | none =>
        cases h7 : env.listenAndServe (overrideListen fl.listenOn c).Listen <;>
        by_cases h5 : fl.staticPath = "" <;>
        cases h6 : env.Getwd <;>
        simp [h3, h4, h5, h6, h7, h70, mainBody, serveStatic, httpHandle,
          runDeferred, logFatal, emit, State.events, State.start,
          sessionLifetimes]

/-- Witness for C2 (amended): the sample run parses `sampleConfig` and every
lifetime it hands to `NewSessionStore` is 70 s. -/
theorem timeouts_are_constants_witness :
    sampleEnv.ReadFile Flags.default.configfile = .ok "raw" ∧
    sampleEnv.Unmarshal "raw" = .ok sampleConfig ∧
    (∀ d ∈ sessionLifetimes (main Flags.default sampleEnv).1.events,
      d = IDLETIMEOUT + 15 * Second ∧ d = 70 * 10 ^ 9) :=
  ⟨rfl, rfl,
    (timeouts_are_constants Flags.default sampleEnv "raw" sampleConfig rfl rfl).2.2.1⟩

/-- C3: when the config file parsed to `c`, every call of `listenAndServe`
receives the `-listen` flag value if that is non-empty and `c.Listen`
otherwise; the call is made whenever the store and push open and the static
directory is known; and the override leaves every other field of the config as
parsed. -/
theorem listen_flag_overrides_config (fl : Flags) (env : Env) (raw : String)
    (c : configType) (hr : env.ReadFile fl.configfile = .ok raw)
    (hu : env.Unmarshal raw = .ok c) :
    (∀ a, Event.listenAndServe a ∈ (main fl env).1.events →
      a = if fl.listenOn ≠ "" then fl.listenOn else c.Listen) ∧
    (env.storeOpen c.Adapter c.StoreConfig = none →
      env.pushInit c.PushConfig = none →
      (fl.staticPath ≠ "" ∨ ∃ d, env.Getwd = .ok d) →
      Event.listenAndServe (if fl.listenOn ≠ "" then fl.listenOn else c.Listen) ∈
        (main fl env).1.events) ∧
    (overrideListen fl.listenOn c).Listen =
      (if fl.listenOn ≠ "" then fl.listenOn else c.Listen) ∧
    (overrideListen fl.listenOn c).Adapter = c.Adapter ∧
    (overrideListen fl.listenOn c).APIKeySalt = c.APIKeySalt ∧
    (overrideListen fl.listenOn c).TokenExpiresIn = c.TokenExpiresIn ∧
    (overrideListen fl.listenOn c).IndexableTags = c.IndexableTags ∧
    (overrideListen fl.listenOn c).ClusterConfig = c.ClusterConfig ∧
    (overrideListen fl.listenOn c).StoreConfig = c.StoreConfig ∧
    (overrideListen fl.listenOn c).PushConfig = c.PushConfig := by
  have hL : (overrideListen fl.listenOn c).Listen =
      (if fl.listenOn ≠ "" then fl.listenOn else c.Listen) := by
    unfold overrideListen; split <;> rfl
  have hA : (overrideListen fl.listenOn c).Adapter = c.Adapter := by
    unfold overrideListen; split <;> rfl
  have hS : (overrideListen fl.listenOn c).StoreConfig = c.StoreConfig := by
    unfold overrideListen; split <;> rfl
  have hP : (overrideListen fl.listenOn c).PushConfig = c.PushConfig := by
    unfold overrideListen; split <;> rfl
  refine ⟨?_, ?_, hL, hA, ?_, ?_, ?_, ?_, hS, hP⟩
  · intro a
    unfold main
    simp only [hr, hu]
    cases h3 : env.storeOpen (overrideListen fl.listenOn c).Adapter
        (overrideListen fl.listenOn c).StoreConfig with
    | some e => simp [h3, logFatal, emit, State.events, State.start]
    | none =>
      cases h4 : env.pushInit (overrideListen fl.listenOn c).PushConfig with
      | some e => simp [h3, h4, logFatal, emit, State.events, State.start]
      | none =>
        rw [← hL]
        cases h7 : env.listenAndServe (overrideListen fl.listenOn c).Listen <;>
        by_cases h5 : fl.staticPath = "" <;>
        cases h6 : env.Getwd <;>
        simp [h3, h4, h5, h6, h7, mainBody, serveStatic, httpHandle,
          runDeferred, logFatal, emit, State.events, State.start]
  · intro h3 h4 h56
    rw [← hA, ← hS] at h3
    rw [← hP] at h4
    rw [← hL]
    unfold main
    simp only [hr, hu]
    rcases h56 with h5 | ⟨d, h6⟩
    · cases h7 : env.listenAndServe (overrideListen fl.listenOn c).Listen <;>
      simp [h3, h4, h5, h7, mainBody, serveStatic, httpHandle,
        runDeferred, logFatal, emit, State.events, State.start]
    · cases h7 : env.listenAndServe (overrideListen fl.listenOn c).Listen <;>
      by_cases h5 : fl.staticPath = "" <;>
      simp [h3, h4, h5, h6, h7, mainBody, serveStatic, httpHandle,
        runDeferred, logFatal, emit, State.events, State.start]
  all_goals (unfold overrideListen; split <;> rfl)

/-- Witness for C3: with `-listen :80` and `sampleConfig` (listen `:6060`) the
sample run calls `listenAndServe` with `:80`. -/
theorem listen_flag_overrides_config_witness :
    sampleEnv.ReadFile "./tinode.conf" = .ok "raw" ∧
    sampleEnv.Unmarshal "raw" = .ok sampleConfig ∧
    Event.listenAndServe ":80" ∈
      (main { Flags.default with listenOn := ":80" } sampleEnv).1.events :=
  ⟨rfl, rfl,
    (listen_flag_overrides_config { Flags.default with listenOn := ":80" }
      sampleEnv "raw" sampleConfig rfl rfl).2.1 rfl rfl (Or.inr ⟨"/srv", rfl⟩)⟩

/-- A run of `main` that calls `listenAndServe` loaded its config, opened the
store, started push, and knew where the static content is. -/
theorem main_listen_inv (fl : Flags) (env : Env) (a : String)
    (h : Event.listenAndServe a ∈ (main fl env).1.events) :
    ∃ raw c, env.ReadFile fl.configfile = .ok raw ∧ env.Unmarshal raw = .ok c ∧
      env.storeOpen (overrideListen fl.listenOn c).Adapter
        (overrideListen fl.listenOn c).StoreConfig = none ∧
      env.pushInit (overrideListen fl.listenOn c).PushConfig = none ∧
      (fl.staticPath ≠ "" ∨ ∃ d, env.Getwd = .ok d) := by
  revert h
  unfold main
  cases h1 : env.ReadFile fl.configfile with
  | error e => simp [logFatal, emit, State.events, State.start]
  | ok raw =>
    cases h2 : env.Unmarshal raw with
    | error e => simp [h2, logFatal, emit, State.events, State.start]
    | ok c =>
      cases h3 : env.storeOpen (overrideListen fl.listenOn c).Adapter
          (overrideListen fl.listenOn c).StoreConfig with
      | some e => simp [h2, h3, logFatal, emit, State.events, State.start]
      | none =>
        cases h4 : env.pushInit (overrideListen fl.listenOn c).PushConfig with
        | some e => simp [h2, h3, h4, logFatal, emit, State.events, State.start]
        | none =>
          by_cases h5 : fl.staticPath = ""
          · cases h6 : env.Getwd with
            | error e =>
              simp [h2, h3, h4, h5, h6, mainBody, serveStatic, logFatal, emit,
                State.events, State.start]
            | ok d =>
              intro _
              exact ⟨raw, c, rfl, h2, h3, h4, Or.inr ⟨d, rfl⟩⟩
          · intro _
            exact ⟨raw, c, rfl, h2, h3, h4, Or.inl h5⟩

/-- C4 (the code at the failing input): with the `-static_data` flag empty and
the working directory `/srv`, the handler `main` registers for `/x/` serves
`/srv/static`, not the working directory `/srv` that the comment at main.go
122-123 names; the sibling branch, taken with the flag set to `/srv`, serves
`/srv` itself with nothing appended. -/
theorem static_root_is_not_working_directory :
    Flags.default.staticPath = "" ∧ sampleEnv.Getwd = .ok "/srv" ∧
    (main Flags.default sampleEnv).1.mux.lookup "/x/" =
      some (Handler.StripPrefix "/x/" (Handler.FileServer "/srv/static")) ∧
    ((main Flags.default sampleEnv).1.mux.lookup "/x/").bind Handler.root ≠
      some "/srv" ∧
    ((main { Flags.default with staticPath := "/srv" } sampleEnv).1.mux.lookup
      "/x/").bind Handler.root = some "/srv" :=
  ⟨by decide, rfl, by decide, by decide, by decide⟩

/-- What `main` registers for `/x/`, on any run: a handler that strips that
prefix and serves files from the `-static_data` flag value `p` when `p` is
non-empty, and from `d ++ "/static"` for the working directory `d` when `p` is
empty; it is registered on every run that reaches `listenAndServe`. -/
theorem static_root_from_flag_or_static_subdir (fl : Flags) (env : Env)
    (d : String) (hd : fl.staticPath = "" → env.Getwd = .ok d) :
    (∀ h, ("/x/", h) ∈ (main fl env).1.mux →
      h = Handler.StripPrefix "/x/" (Handler.FileServer
        (if fl.staticPath ≠ "" then fl.staticPath else d ++ "/static"))) ∧
    ((∃ a, Event.listenAndServe a ∈ (main fl env).1.events) →
      (main fl env).1.mux.lookup "/x/" =
        some (Handler.StripPrefix "/x/" (Handler.FileServer
          (if fl.staticPath ≠ "" then fl.staticPath else d ++ "/static")))) := by
  constructor
  · intro h
    unfold main
    cases h1 : env.ReadFile fl.configfile with
    | error e => simp [logFatal, emit, State.start]
    | ok raw =>
      cases h2 : env.Unmarshal raw with
      | error e => simp [h2, logFatal, emit, State.start]
      | ok c =>
        cases h3 : env.storeOpen (overrideListen fl.listenOn c).Adapter
            (overrideListen fl.listenOn c).StoreConfig with
        | some e => simp [h2, h3, logFatal, emit, State.start]
        | none =>
          cases h4 : env.pushInit (overrideListen fl.listenOn c).PushConfig with
          | some e => simp [h2, h3, h4, logFatal, emit, State.start]
          | none =>
            by_cases h5 : fl.staticPath = ""
            · have h6 := hd h5
              cases h7 : env.listenAndServe (overrideListen fl.listenOn c).Listen <;>
              simp [h2, h3, h4, h5, h6, h7, mainBody, serveStatic, httpHandle,
                runDeferred, logFatal, emit, State.start]
            · cases h7 : env.listenAndServe (overrideListen fl.listenOn c).Listen <;>
              simp [h2, h3, h4, h5, h7, mainBody, serveStatic, httpHandle,
                runDeferred, logFatal, emit, State.start]
  · rintro ⟨a, h⟩
    obtain ⟨raw, c, h1, h2, h3, h4, -⟩ := main_listen_inv fl env a h
    unfold main
    simp only [h1, h2, h3, h4]
    by_cases h5 : fl.staticPath = ""
    · have h6 := hd h5
      cases h7 : env.listenAndServe (overrideListen fl.listenOn c).Listen <;>
      simp [h5, h6, h7, mainBody, serveStatic, httpHandle,
        runDeferred, logFatal, emit, State.start, List.lookup]
    · cases h7 : env.listenAndServe (overrideListen fl.listenOn c).Listen <;>
      simp [h5, h7, mainBody, serveStatic, httpHandle,
        runDeferred, logFatal, emit, State.start, List.lookup]

set_option maxHeartbeats 1600000 in
/-- C5: on every run of `main` that reaches `listenAndServe`, the trace splits
around a single `newHub` call: before it come the successful `store.Open` and
`push.Init` and the `NewSessionStore` call, and no `clusterInit`, handler
registration or `listenAndServe`; after it come `clusterInit`, the
registrations of `/v0/channels` and `/v0/channels/lp`, and `listenAndServe`;
`globals.hub` is nil and the session store is in place when `newHub` is called;
and every handler registration happens with `globals.hub` set. -/
theorem hub_created_once_before_handlers (fl : Flags) (env : Env)
    (h : ∃ a, Event.listenAndServe a ∈ (main fl env).1.events) :
    (∃ pre post, (main fl env).1.events = pre ++ Event.newHub :: post ∧
      Event.newHub ∉ pre ∧ Event.newHub ∉ post ∧
      (∃ adapter cfg, Event.storeOpen adapter cfg ∈ pre ∧
        env.storeOpen adapter cfg = none) ∧
      (∃ cfg, Event.pushInit cfg ∈ pre ∧ env.pushInit cfg = none) ∧
      (∃ d, Event.NewSessionStore d ∈ pre) ∧
      (∀ e ∈ pre, e.isClusterInit = false ∧ e.isHandle = false ∧
        e.isListen = false) ∧
      (∃ cfg, Event.clusterInit cfg ∈ post) ∧
      Event.Handle "/v0/channels" Handler.serveWebSocket ∈ post ∧
      Event.Handle "/v0/channels/lp" Handler.serveLongPoll ∈ post ∧
      (∃ a, Event.listenAndServe a ∈ post)) ∧
    (∀ x ∈ (main fl env).1.trace, x.1 = Event.newHub →
      x.2.hub = none ∧
      x.2.sessionStore = some (NewSessionStore (IDLETIMEOUT + 15 * Second))) ∧
    (∀ x ∈ (main fl env).1.trace, x.1.isHandle = true →
      x.2.hub = some newHub) ∧
    (main fl env).1.globals.hub = some newHub := by
  obtain ⟨a, h⟩ := h
  obtain ⟨raw, c, h1, h2, h3, h4, h56⟩ := main_listen_inv fl env a h
  clear h
  generalize hm : main fl env = m
  unfold main at hm
  simp only [h1, h2, h3, h4] at hm
  rcases h56 with h5 | ⟨d, h6⟩
  · cases h7 : env.listenAndServe (overrideListen fl.listenOn c).Listen <;>
    simp [h5, h7, mainBody, serveStatic, httpHandle, runDeferred,
      logFatal, emit, State.start, Globals.zero] at hm <;>
    refine ⟨⟨m.1.events.takeWhile (fun e => decide (e ≠ Event.newHub)),
      (m.1.events.dropWhile (fun e => decide (e ≠ Event.newHub))).tail, ?_⟩,
      ?_, ?_, ?_⟩ <;>
    subst hm <;>
    simp [h3, h4, State.events, Event.isHandle, Event.isClusterInit,
      Event.isListen] <;>
    exact ⟨_, _, ⟨rfl, rfl⟩, h3⟩
  · cases h7 : env.listenAndServe (overrideListen fl.listenOn c).Listen <;>
    by_cases h5 : fl.staticPath = "" <;>
    simp [h5, h6, h7, mainBody, serveStatic, httpHandle, runDeferred,
      logFatal, emit, State.start, Globals.zero] at hm <;>
    refine ⟨⟨m.1.events.takeWhile (fun e => decide (e ≠ Event.newHub)),
      (m.1.events.dropWhile (fun e => decide (e ≠ Event.newHub))).tail, ?_⟩,
      ?_, ?_, ?_⟩ <;>
    subst hm <;>
    simp [h3, h4, State.events, Event.isHandle, Event.isClusterInit,
      Event.isListen] <;>
    exact ⟨_, _, ⟨rfl, rfl⟩, h3⟩

/-- Witness for C5: the sample run reaches `listenAndServe`, and its `globals`
hold the hub made by `newHub`. -/
theorem hub_created_once_before_handlers_witness :
    (∃ a, Event.listenAndServe a ∈ (main Flags.default sampleEnv).1.events) ∧
    (main Flags.default sampleEnv).1.globals.hub = some newHub :=
  ⟨⟨":6060", by decide⟩,
    (hub_created_once_before_handlers Flags.default sampleEnv
      ⟨":6060", by decide⟩).2.2.2⟩

/-! ## Theorems about the topic actor and `getApiKey` -/

/-- One mailbox event either is an accepted publish, acknowledged with the
counter plus one and advancing the counter by one, or is not acknowledged with
an id and leaves the counter as it was. -/
theorem Topic.step_sequenceCounter (t : Topic) (op : TopicOp) :
    (acceptedIds [(t.step op).2] = [t.sequenceCounter + 1] ∧
      (t.step op).1.sequenceCounter = t.sequenceCounter + 1) ∨
    (acceptedIds [(t.step op).2] = [] ∧
      (t.step op).1.sequenceCounter = t.sequenceCounter) := by
  cases op with
  | Subscribe session mode =>
    right
    simp [Topic.step, Topic.Subscribe, acceptedIds]
  | Unsubscribe session =>
    right
    simp only [Topic.step, Topic.Unsubscribe]
    cases t.modeOf session <;> simp [acceptedIds]
  | Publish session payload stored =>
    simp only [Topic.step, Topic.Publish]
    cases t.modeOf session with
    | none => right; simp [acceptedIds]
    | some mode =>
      cases hw : mode.canWrite <;> cases stored <;> simp [hw, acceptedIds]

/-- The accepted ids of a run are the ids of its first event followed by those
of the rest of the run. -/
theorem acceptedIds_cons (r : TopicReply) (rs : List TopicReply) :
    acceptedIds (r :: rs) = acceptedIds [r] ++ acceptedIds rs := by
  cases r <;> simp [acceptedIds]

/-- The ids acknowledged along a run count up from the counter the topic
started with, and the counter ends advanced by their number. -/
theorem Topic.run_acceptedIds (ops : List TopicOp) : ∀ t : Topic,
    acceptedIds (t.run ops).2 =
      List.range' (t.sequenceCounter + 1) (acceptedIds (t.run ops).2).length ∧
    (t.run ops).1.sequenceCounter =
      t.sequenceCounter + (acceptedIds (t.run ops).2).length := by
  induction ops with
  | nil => intro t; simp [Topic.run, acceptedIds]
  | cons op ops ih =>
    intro t
    obtain ⟨ih₁, ih₂⟩ := ih (t.step op).1
    simp only [Topic.run]
    rw [acceptedIds_cons]
    rcases Topic.step_sequenceCounter t op with ⟨h₁, h₂⟩ | ⟨h₁, h₂⟩
    · rw [h₂] at ih₁ ih₂
      rw [h₁, ih₂]
      constructor
      · simp only [List.singleton_append, List.length_cons]
        rw [List.range'_succ]
        congr 1
      · simp only [List.singleton_append, List.length_cons]
        omega
    · rw [h₂] at ih₁ ih₂
      rw [h₁, ih₂]
      exact ⟨by simpa using ih₁, by simp⟩

/-- C6: for every topic and every sequence of mailbox events, the sequence ids
acknowledged to the accepted publishes are, in order, the topic's counter plus
1, 2, 3, ...: each is its predecessor plus one, so they are strictly increasing
with no gaps and no duplicates, and the counter ends at the last id given. -/
theorem accepted_sequence_ids_consecutive (t : Topic) (ops : List TopicOp) :
    acceptedIds (t.run ops).2 =
      List.range' (t.sequenceCounter + 1) (acceptedIds (t.run ops).2).length ∧
    List.Chain' (fun a b => b = a + 1) (acceptedIds (t.run ops).2) ∧
    List.Pairwise (fun a b => a < b) (acceptedIds (t.run ops).2) ∧
    (acceptedIds (t.run ops).2).Nodup ∧
    (t.run ops).1.sequenceCounter =
      t.sequenceCounter + (acceptedIds (t.run ops).2).length := by
  obtain ⟨h₁, h₂⟩ := Topic.run_acceptedIds ops t
  refine ⟨h₁, ?_, ?_, ?_, h₂⟩
  · rw [h₁]
    cases (acceptedIds (t.run ops).2).length with
    | zero => simp
    | succ n =>
      rw [List.range'_succ]
      exact List.chain_succ_range' _ _ 1
  · rw [h₁]
    exact List.pairwise_lt_range' _ _
  · rw [h₁]
    exact List.nodup_range' _ _

/-- The scenario of the spec: on the new topic `grp1`, A and B subscribe
read-write, A publishes P1 and is acknowledged with id 1, B publishes P2 and is
acknowledged with id 2, both broadcast to A and B. -/
theorem grp1_scenario :
    ((Topic.create "grp1").run
      [TopicOp.Subscribe "A" AccessMode.write, TopicOp.Subscribe "B" AccessMode.write,
        TopicOp.Publish "A" "P1" true, TopicOp.Publish "B" "P2" true]).2 =
    [TopicReply.snapshot ["A"] 0, TopicReply.snapshot ["A", "B"] 0,
      TopicReply.ack 1 "P1" ["A", "B"], TopicReply.ack 2 "P2" ["A", "B"]] := by
  decide

/-- C7: `getApiKey` returns the form value of `apikey` when that is non-empty
and the value of the `X-Tinode-APIKey` header otherwise, so it returns the empty
string exactly when both are empty. -/
theorem getApiKey_prefers_form_value (req : Request) :
    getApiKey req =
      (if req.FormValue "apikey" ≠ "" then req.FormValue "apikey"
        else req.HeaderGet "X-Tinode-APIKey") ∧
    (getApiKey req = "" ↔
      req.FormValue "apikey" = "" ∧ req.HeaderGet "X-Tinode-APIKey" = "") := by
  unfold getApiKey
  by_cases hf : req.FormValue "apikey" = "" <;> simp [hf]

/-- The sample request has no form value, so `getApiKey` returns its header
value. -/
theorem getApiKey_sampleRequest : getApiKey sampleRequest = "AQEAAAABAAD" := by
  decide

end Chat
